import Mathlib

/-!
Verification of the Dance Companion repository's mirrored-pose pipeline.

The development shallowly embeds the repository's own logic:
* `utils/pose_visualizer.py` — `PoseVisualizer.create_mirrored_landmarks`,
  `PoseVisualizer.draw_mirrored_pose`, `PoseVisualizer.create_composite`;
* `dance_companion.py` (`main`) and `app.py` (module-level loop) — the
  orchestration loops with their resource-release behaviour.

External library calls are modelled by their documented semantics: `cv2.add`
is per-channel saturating addition, `np.zeros_like` a zero canvas of the
frame's shape, `cv2.circle`/`cv2.line` clipped rasterizers writing a fixed
colour to a set of pixels, and Python's `int()` truncation toward zero.
-/

namespace DanceCompanion

/-- A colour / pixel value: the three 8-bit channels of a BGR pixel,
each held as a natural number. -/
abbrev Color := ℕ × ℕ × ℕ

/-- A frame or canvas: a list of rows of pixels (`numpy` HxW array of colours). -/
abbrev Img := List (List Color)

/-- The pixel of `img` at row `i`, column `j`, when both are in range. -/
def pixel? (img : Img) (i j : ℕ) : Option Color :=
  (img.get? i).bind fun row => row.get? j

/-- Two images have the same shape: the same list of row lengths. -/
def sameShape (f g : Img) : Prop := f.map List.length = g.map List.length

/-- All channels of all pixels fit in 8 bits (`numpy` `uint8` data). -/
def wf8 (img : Img) : Prop :=
  ∀ row ∈ img, ∀ c ∈ row, c.1 ≤ 255 ∧ c.2.1 ≤ 255 ∧ c.2.2 ≤ 255

/-- Model of `np.zeros_like(frame)`: an all-zero image of the same shape as `img`. -/
def zerosLike (img : Img) : Img :=
  img.map fun row => row.map fun _ => ((0, 0, 0) : Color)

/-- Python's `int()` on a real value: truncation toward zero. -/
def pyInt (q : ℚ) : ℤ := if 0 ≤ q then ⌊q⌋ else ⌈q⌉

/-- A detected landmark: normalized coordinates as produced by the landmark
provider (the unused depth/visibility fields are omitted). -/
structure Landmark where
  x : ℚ
  y : ℚ
deriving DecidableEq

/-- The render configuration held by `PoseVisualizer.__init__`. -/
structure PoseVisualizer where
  landmark_color : Color
  connection_color : Color
  circle_radius : ℕ
  line_thickness : ℕ
  offset_x : ℤ
deriving DecidableEq

/-- Embedding of `PoseVisualizer.create_mirrored_landmarks(self, landmarks, frame_shape)`:

    h, w, _ = frame_shape
    for idx, lm in enumerate(landmarks.landmark):
        x = int(lm.x * w)
        y = int(lm.y * h)
        mirror_x = w - x + self.offset_x
        mirrored_landmarks[idx] = (mirror_x, y)

The dict built by the loop is the association list below: keys are the
`enumerate` indices, values the `(mirror_x, y)` pixel pairs. -/
def create_mirrored_landmarks (self : PoseVisualizer) (landmarks : List Landmark)
    (h w : ℕ) : List (ℕ × ℤ × ℤ) :=
  landmarks.enum.map fun p =>
    (p.1, ((w : ℤ) - pyInt (p.2.x * w) + self.offset_x, pyInt (p.2.y * h)))

/-- The entry the spec sentence behind C2 prescribes (formalising its words):
`idx → (round(w - xn*w) + dx, round(yn*h))` with `round` the truncation
toward zero used for normalized-to-pixel conversion. -/
def specMirrorEntryC2 (lm : Landmark) (h w : ℕ) (dx : ℤ) : ℤ × ℤ :=
  (pyInt ((w : ℚ) - lm.x * w) + dx, pyInt (lm.y * h))

/- ### Theorems on the mirror transform -/

/-- C1: every landmark with normalized coordinates in `[0,1]×[0,1]` is mapped,
under its `enumerate` index, to exactly `(w - pixel_x + dx, pixel_y)` with
`pixel_x = trunc(xn*w)` and `pixel_y = trunc(yn*h)`: the y pixel is the
unmirrored pixel y, and the x value is the unclamped affine expression
`w - pixel_x + dx`, even when it lies outside `[0, w)`. -/
theorem C1_mirror_formula (self : PoseVisualizer) (landmarks : List Landmark)
    (h w idx : ℕ) (lm : Landmark) (hget : landmarks.get? idx = some lm)
    (hx0 : 0 ≤ lm.x) (hx1 : lm.x ≤ 1) (hy0 : 0 ≤ lm.y) (hy1 : lm.y ≤ 1) :
    (create_mirrored_landmarks self landmarks h w).get? idx =
      some (idx, ((w : ℤ) - pyInt (lm.x * w) + self.offset_x, pyInt (lm.y * h))) := by
  have hget' : landmarks[idx]? = some lm := by
    rwa [List.get?_eq_getElem?] at hget
  simp [create_mirrored_landmarks, List.getElem?_map, List.getElem?_enum]
  exact ⟨lm, hget', rfl, rfl⟩

/-- Witness for C1: a landmark at normalized `(1/10, 3/4)` in a `100×100`
frame with offset `150` lands at `(100 - 10 + 150, 75) = (240, 75)`, a pixel
x far outside `[0, 100)` and not clamped. -/
theorem C1_mirror_formula_witness :
    (create_mirrored_landmarks ⟨(255, 0, 0), (0, 0, 255), 3, 2, 150⟩
        [⟨1/10, 3/4⟩] 100 100).get? 0 = some (0, (240, 75)) := by
  have := C1_mirror_formula ⟨(255, 0, 0), (0, 0, 255), 3, 2, 150⟩
    [⟨1/10, 3/4⟩] 100 100 0 ⟨1/10, 3/4⟩ rfl (by norm_num) (by norm_num)
    (by norm_num) (by norm_num)
  rw [this]
  norm_num [pyInt]

/-- C8: the mirrored map's key list is exactly `0, 1, …, n-1` for an input of
`n` landmarks — one entry per input index, no drops, no duplicates. -/
theorem C8_keys_exact (self : PoseVisualizer) (landmarks : List Landmark) (h w : ℕ) :
    ((create_mirrored_landmarks self landmarks h w).map Prod.fst =
        List.range landmarks.length) ∧
      ((create_mirrored_landmarks self landmarks h w).map Prod.fst).Nodup := by
  constructor
  · simp [create_mirrored_landmarks, List.map_map]
    have : (Prod.fst ∘ fun p : ℕ × Landmark =>
        (p.1, ((w : ℤ) - pyInt (p.2.x * w) + self.offset_x, pyInt (p.2.y * h)))) =
        Prod.fst := rfl
    rw [this, List.enum_map_fst]
  · simp [create_mirrored_landmarks, List.map_map]
    have : (Prod.fst ∘ fun p : ℕ × Landmark =>
        (p.1, ((w : ℤ) - pyInt (p.2.x * w) + self.offset_x, pyInt (p.2.y * h)))) =
        Prod.fst := rfl
    rw [this, List.enum_map_fst]
    exact List.nodup_range _

/-- On a single landmark, the transform produces the one mirrored entry. -/
theorem create_mirrored_landmarks_singleton (self : PoseVisualizer) (lm : Landmark)
    (h w : ℕ) :
    create_mirrored_landmarks self [lm] h w =
      [(0, ((w : ℤ) - pyInt (lm.x * w) + self.offset_x, pyInt (lm.y * h)))] := rfl

/-- Truncation `pyInt` is the identity on integers. -/
theorem pyInt_intCast (n : ℤ) : pyInt (n : ℚ) = n := by
  unfold pyInt
  split
  · exact Int.floor_intCast n
  · exact Int.ceil_intCast n

/-- C2 counterexample: at `xn = 1/200`, `w = 100`, `h = 1`, `dx = 0`, the code
produces pixel `(100, 0)` (it computes `w - trunc(xn*w) + dx = 100 - 0`), while
the claimed formula `trunc(w - xn*w) + dx = trunc(99.5) = 99` gives `(99, 0)`. -/
theorem C2_truncation_counterexample :
    (create_mirrored_landmarks ⟨(255, 0, 0), (0, 0, 255), 3, 2, 0⟩
        [⟨1/200, 0⟩] 1 100).get? 0 = some (0, (100, 0)) ∧
      specMirrorEntryC2 ⟨1/200, 0⟩ 1 100 0 = (99, 0) ∧
      ((100 : ℤ), (0 : ℤ)) ≠ ((99 : ℤ), (0 : ℤ)) := by
  refine ⟨?_, ?_, by decide⟩
  · rw [create_mirrored_landmarks_singleton]
    norm_num [pyInt]
  · norm_num [specMirrorEntryC2, pyInt]

/-- C2 amended: for every landmark list and every index, the transform
produces the entry `idx → (w - trunc(xn*w) + dx, trunc(yn*h))`: truncation
toward zero is applied to `xn*w` before the subtraction from `w`, which
exceeds `trunc(w - xn*w) + dx` by one whenever `xn*w` is non-integral. -/
theorem C2_mirror_entry_amended (self : PoseVisualizer) (landmarks : List Landmark)
    (h w idx : ℕ) (lm : Landmark) (hget : landmarks.get? idx = some lm) :
    (create_mirrored_landmarks self landmarks h w).get? idx =
      some (idx, ((w : ℤ) - pyInt (lm.x * w) + self.offset_x, pyInt (lm.y * h))) := by
  have hget' : landmarks[idx]? = some lm := by
    rwa [List.get?_eq_getElem?] at hget
  simp [create_mirrored_landmarks, List.getElem?_map, List.getElem?_enum]
  exact ⟨lm, hget', rfl, rfl⟩

/-- Witness for the amended C2 at `xn = 1/200`, `w = 100`, `dx = 0`. -/
theorem C2_mirror_entry_amended_witness :
    (create_mirrored_landmarks ⟨(255, 0, 0), (0, 0, 255), 3, 2, 0⟩
        [⟨1/200, 0⟩] 1 100).get? 0 =
      some (0, ((100 : ℤ) - pyInt ((1/200 : ℚ) * 100) + 0, pyInt ((0 : ℚ) * 1))) :=
  C2_mirror_entry_amended ⟨(255, 0, 0), (0, 0, 255), 3, 2, 0⟩ [⟨1/200, 0⟩]
    1 100 0 ⟨1/200, 0⟩ rfl

/-- C7: the mirror transform is involutive under zero offset: mirroring a
landmark's x, renormalizing the resulting pixel x by dividing by `w`, and
mirroring again returns the original pixel x `trunc(xn*w)` (here exactly,
so in particular within rounding tolerance). -/
theorem C7_involutive (self : PoseVisualizer) (hdx : self.offset_x = 0)
    (xn yn : ℚ) (h w : ℕ) (hw : 0 < w) (hx0 : 0 ≤ xn) (hx1 : xn ≤ 1) :
    ∀ e ∈ create_mirrored_landmarks self [⟨xn, yn⟩] h w,
      ∀ e2 ∈ create_mirrored_landmarks self [⟨(e.2.1 : ℚ) / (w : ℚ), yn⟩] h w,
        e2.2.1 = pyInt (xn * (w : ℚ)) := by
  intro e he e2 he2
  rw [create_mirrored_landmarks_singleton, List.mem_singleton] at he he2
  subst he
  subst he2
  have hw0 : ((w : ℚ)) ≠ 0 := Nat.cast_ne_zero.mpr hw.ne'
  simp only [hdx, add_zero]
  rw [div_mul_cancel₀ _ hw0, pyInt_intCast]
  ring

/-- Witness for C7: `xn = 1/10`, `w = 100`, `dx = 0`: the first mirror gives
pixel x `90`; renormalizing to `90/100` and mirroring again gives
`trunc(1/10 * 100) = 10`, the original pixel x. -/
theorem C7_involutive_witness :
    (((0 : ℕ), ((10 : ℤ), (0 : ℤ))) : ℕ × ℤ × ℤ).2.1 =
      pyInt ((1/10 : ℚ) * ((100 : ℕ) : ℚ)) :=
  C7_involutive ⟨(255, 0, 0), (0, 0, 255), 3, 2, 0⟩ rfl (1/10) 0 100 100
    (by norm_num) (by norm_num) (by norm_num) ((0 : ℕ), ((90 : ℤ), (0 : ℤ)))
    (by rw [create_mirrored_landmarks_singleton]; norm_num [pyInt])
    ((0 : ℕ), ((10 : ℤ), (0 : ℤ)))
    (by rw [create_mirrored_landmarks_singleton]; norm_num [pyInt])

/- ### The compositor: `PoseVisualizer.create_composite` -/

/-- Per-channel saturating addition of `uint8` values: `cv2.add` clamps each
channel sum at 255. -/
def satAdd (a b : ℕ) : ℕ := min 255 (a + b)

/-- Saturating addition on a whole pixel (`cv2.add`, per channel). -/
def addColor (c d : Color) : Color :=
  (satAdd c.1 d.1, satAdd c.2.1 d.2.1, satAdd c.2.2 d.2.2)

/-- Model of `cv2.add(frame, replica)`: per-pixel, per-channel saturating addition. -/
def cvAdd (f r : Img) : Img := List.zipWith (List.zipWith addColor) f r

/-- Embedding of `PoseVisualizer.create_composite(self, frame, replica)`:

    return cv2.add(frame, replica)
-/
def create_composite (f r : Img) : Img := cvAdd f r

/-- C4: the compositor's every channel value is `min(255, a + b)` of the two
inputs' channels, and the compositor is commutative. It is a Lean function of
its two arguments, hence pure and side-effect-free, and neither input list is
modified. -/
theorem C4_composite_saturating (f r : Img) :
    create_composite f r = create_composite r f ∧
      ∀ i j pf pr, pixel? f i j = some pf → pixel? r i j = some pr →
        pixel? (create_composite f r) i j =
          some (min 255 (pf.1 + pr.1), min 255 (pf.2.1 + pr.2.1),
            min 255 (pf.2.2 + pr.2.2)) := by
  constructor
  · have hc : ∀ c d : Color, addColor c d = addColor d c := by
      intro c d
      simp [addColor, satAdd, Nat.add_comm]
    have hrow : ∀ a b : List Color,
        List.zipWith addColor a b = List.zipWith addColor b a :=
      fun a b => List.zipWith_comm_of_comm addColor hc a b
    exact List.zipWith_comm_of_comm _ hrow f r
  · intro i j pf pr hf hr
    simp only [pixel?, Option.bind_eq_some] at hf hr
    obtain ⟨rowf, hrowf, hjf⟩ := hf
    obtain ⟨rowr, hrowr, hjr⟩ := hr
    have h1 : (create_composite f r).get? i =
        some (List.zipWith addColor rowf rowr) := by
      rw [create_composite, cvAdd, List.get?_zipWith', hrowf, hrowr]
      rfl
    have h2 : (List.zipWith addColor rowf rowr).get? j = some (addColor pf pr) := by
      rw [List.get?_zipWith', hjf, hjr]
      rfl
    simp only [pixel?, h1, Option.some_bind, h2]
    rfl

/-- Witness for C4: compositing the single pixels `(250, 1, 2)` and
`(10, 3, 4)` yields `(255, 4, 6)`: the first channel saturates at 255. -/
theorem C4_composite_saturating_witness :
    pixel? (create_composite [[(250, 1, 2)]] [[(10, 3, 4)]]) 0 0 =
      some (min 255 (250 + 10), min 255 (1 + 3), min 255 (2 + 4)) :=
  (C4_composite_saturating [[(250, 1, 2)]] [[(10, 3, 4)]]).2 0 0
    (250, 1, 2) (10, 3, 4) rfl rfl

/- ### The renderer: `PoseVisualizer.draw_mirrored_pose` -/

/-- A primitive drawing call issued to OpenCV: a filled circle
(`cv2.circle` with thickness `-1`) or a thick line segment (`cv2.line`). -/
inductive DrawOp where
  | circle (center : ℤ × ℤ) (radius : ℕ) (color : Color)
  | line (p q : ℤ × ℤ) (thickness : ℕ) (color : Color)
deriving DecidableEq

/-- Whether a drawing call is a circle call. -/
def isCircleOp : DrawOp → Bool
  | .circle _ _ _ => true
  | .line _ _ _ _ => false

/-- Whether a drawing call is a line call. -/
def isLineOp : DrawOp → Bool
  | .circle _ _ _ => false
  | .line _ _ _ _ => true

/-- Pixel membership in a filled circle of radius `r` about `c`. -/
def inDisc (c : ℤ × ℤ) (r : ℕ) (x y : ℤ) : Bool :=
  decide ((x - c.1) ^ 2 + (y - c.2) ^ 2 ≤ (r : ℤ) ^ 2)

/-- Pixel membership in a thick segment from `p` to `q`: the squared distance
from the pixel to the segment is at most `t²` (a standard clipped thick-line
rasterization model). -/
def nearSegment (p q : ℤ × ℤ) (t : ℕ) (x y : ℤ) : Bool :=
  let dx := q.1 - p.1
  let dy := q.2 - p.2
  let vx := x - p.1
  let vy := y - p.2
  let len2 := dx ^ 2 + dy ^ 2
  if len2 = 0 then decide (vx ^ 2 + vy ^ 2 ≤ (t : ℤ) ^ 2)
  else
    let dot := vx * dx + vy * dy
    if dot < 0 then decide (vx ^ 2 + vy ^ 2 ≤ (t : ℤ) ^ 2)
    else if len2 < dot then
      decide ((x - q.1) ^ 2 + (y - q.2) ^ 2 ≤ (t : ℤ) ^ 2)
    else decide ((vx * dy - vy * dx) ^ 2 ≤ (t : ℤ) ^ 2 * len2)

/-- Overwrite with `color` every in-bounds pixel whose coordinates satisfy
`p` (clipped rasterization: out-of-bounds coordinates are simply absent). -/
def setPixels (img : Img) (p : ℤ → ℤ → Bool) (color : Color) : Img :=
  img.enum.map fun ir =>
    ir.2.enum.map fun jc => if p (jc.1 : ℤ) (ir.1 : ℤ) then color else jc.2

/-- Execute one OpenCV drawing call on a canvas. -/
def applyOp (img : Img) : DrawOp → Img
  | .circle c r col => setPixels img (fun x y => inDisc c r x y) col
  | .line p q t col => setPixels img (fun x y => nearSegment p q t x y) col

/-- The sequence of OpenCV drawing calls issued by
`PoseVisualizer.draw_mirrored_pose`:

    for position in mirrored_landmarks.values():
        cv2.circle(replica, position, self.circle_radius, self.landmark_color, -1)
    for connection in connections:
        start_idx, end_idx = connection
        if start_idx in mirrored_landmarks and end_idx in mirrored_landmarks:
            cv2.line(replica, mirrored_landmarks[start_idx],
                     mirrored_landmarks[end_idx],
                     self.connection_color, self.line_thickness)

All circle calls (one per map value, in map order) precede all line calls
(one per topology pair whose two endpoints are both keys of the map, in
topology order). -/
def drawOps (self : PoseVisualizer) (ml : List (ℕ × ℤ × ℤ))
    (conns : List (ℕ × ℕ)) : List DrawOp :=
  (ml.map fun kv => DrawOp.circle kv.2 self.circle_radius self.landmark_color) ++
    conns.filterMap fun c =>
      match ml.lookup c.1, ml.lookup c.2 with
      | some p, some q =>
          some (DrawOp.line p q self.line_thickness self.connection_color)
      | _, _ => none

/-- Embedding of `PoseVisualizer.draw_mirrored_pose(self, frame, mirrored_landmarks,
connections)`: create `replica = np.zeros_like(frame)` and execute the
drawing calls on it; the original frame is never a drawing target. -/
def draw_mirrored_pose (self : PoseVisualizer) (frame : Img)
    (ml : List (ℕ × ℤ × ℤ)) (conns : List (ℕ × ℕ)) : Img :=
  (drawOps self ml conns).foldl applyOp (zerosLike frame)

/-- Every drawing call in the first (map) part of `drawOps` is a circle. -/
theorem circle_of_mem_mapPart (self : PoseVisualizer) (ml : List (ℕ × ℤ × ℤ))
    (op : DrawOp)
    (hmem : op ∈ ml.map fun kv =>
      DrawOp.circle kv.2 self.circle_radius self.landmark_color) :
    isCircleOp op = true := by
  obtain ⟨kv, _, hkv⟩ := List.mem_map.mp hmem
  rw [← hkv]
  rfl

/-- Every drawing call in the second (topology) part of `drawOps` is a line
whose endpoints are the looked-up positions of a topology pair with both
endpoints present in the map. -/
theorem line_of_mem_connPart (self : PoseVisualizer) (ml : List (ℕ × ℤ × ℤ))
    (conns : List (ℕ × ℕ)) (op : DrawOp)
    (hmem : op ∈ conns.filterMap fun c =>
      match ml.lookup c.1, ml.lookup c.2 with
      | some p, some q =>
          some (DrawOp.line p q self.line_thickness self.connection_color)
      | _, _ => none) :
    ∃ a b p q, (a, b) ∈ conns ∧ ml.lookup a = some p ∧ ml.lookup b = some q ∧
      op = DrawOp.line p q self.line_thickness self.connection_color := by
  obtain ⟨c, hcmem, hfc⟩ := List.mem_filterMap.mp hmem
  rcases hla : ml.lookup c.1 with _ | p <;> rcases hlb : ml.lookup c.2 with _ | q <;>
    rw [hla, hlb] at hfc <;> simp only [Option.some.injEq] at hfc
  · exact absurd hfc (by simp)
  · exact absurd hfc (by simp)
  · exact absurd hfc (by simp)
  · exact ⟨c.1, c.2, p, q, by simpa using hcmem, hla, hlb, hfc.symm⟩

/-- C5: the renderer issues a line call for a topology pair `(a, b)` exactly
when both `a` and `b` are keys of the mirrored map (first two conjuncts: the
line for a fully-present pair is issued, and every issued line arises from a
fully-present pair — a pair with a missing endpoint is silently skipped, and
`drawOps` is total, so no error is raised); and every circle (keypoint) call
strictly precedes every line (connection) call in the issued sequence. -/
theorem C5_lines_iff_present (self : PoseVisualizer) (ml : List (ℕ × ℤ × ℤ))
    (conns : List (ℕ × ℕ)) :
    (∀ a b p q, (a, b) ∈ conns → ml.lookup a = some p → ml.lookup b = some q →
        DrawOp.line p q self.line_thickness self.connection_color ∈
          drawOps self ml conns) ∧
      (∀ p q t col, DrawOp.line p q t col ∈ drawOps self ml conns →
        ∃ a b, (a, b) ∈ conns ∧ ml.lookup a = some p ∧ ml.lookup b = some q ∧
          t = self.line_thickness ∧ col = self.connection_color) ∧
      (∀ i j opi opj, (drawOps self ml conns).get? i = some opi →
        (drawOps self ml conns).get? j = some opj →
        isLineOp opi = true → isCircleOp opj = true → j < i) := by
  refine ⟨?_, ?_, ?_⟩
  · intro a b p q hc ha hb
    refine List.mem_append_right _ (List.mem_filterMap.mpr ⟨(a, b), hc, ?_⟩)
    rw [ha, hb]
  · intro p q t col hmem
    rcases List.mem_append.mp hmem with hcirc | hline
    · have := circle_of_mem_mapPart self ml _ hcirc
      simp [isCircleOp] at this
    · obtain ⟨a, b, p', q', hcmem, ha, hb, heq⟩ :=
        line_of_mem_connPart self ml conns _ hline
      obtain ⟨hp, hq, ht, hcol⟩ : p' = p ∧ q' = q ∧ self.line_thickness = t ∧
          self.connection_color = col := by
        cases heq
        exact ⟨rfl, rfl, rfl, rfl⟩
      exact ⟨a, b, hcmem, hp ▸ ha, hq ▸ hb, ht.symm, hcol.symm⟩
  · intro i j opi opj hi hj hlinei hcirclej
    set L := ml.map fun kv =>
      DrawOp.circle kv.2 self.circle_radius self.landmark_color with hL
    have hiL : L.length ≤ i := by
      by_contra hlt
      push_neg at hlt
      rw [drawOps, List.get?_append hlt] at hi
      have := circle_of_mem_mapPart self ml opi (hL ▸ List.get?_mem hi)
      rw [← this] at hlinei
      cases opi <;> simp [isCircleOp, isLineOp] at hlinei this
    have hjL : j < L.length := by
      by_contra hge
      push_neg at hge
      rw [drawOps, List.get?_append_right hge] at hj
      obtain ⟨a, b, p, q, _, _, _, heq⟩ :=
        line_of_mem_connPart self ml conns opj (List.get?_mem hj)
      rw [heq] at hcirclej
      simp [isCircleOp] at hcirclej
    exact lt_of_lt_of_le hjL hiL

/-- Witness for C5: with the mirrored map `{0 ↦ (1,2), 1 ↦ (3,4)}` and the
topology `[(0,1), (0,5)]`, the line for `(0,1)` is issued (endpoint `5` of the
other pair is missing, so only this line exists). -/
theorem C5_lines_iff_present_witness :
    DrawOp.line (1, 2) (3, 4) 2 (0, 0, 255) ∈
      drawOps ⟨(255, 0, 0), (0, 0, 255), 3, 2, 150⟩
        [(0, (1, 2)), (1, (3, 4))] [(0, 1), (0, 5)] :=
  (C5_lines_iff_present ⟨(255, 0, 0), (0, 0, 255), 3, 2, 150⟩
      [(0, (1, 2)), (1, (3, 4))] [(0, 1), (0, 5)]).1
    0 1 (1, 2) (3, 4) (by decide) (by decide) (by decide)

/-- A zero canvas depends only on the image's shape (its list of row
lengths), never on its pixel values. -/
theorem zerosLike_shape (im : Img) :
    zerosLike im =
      (im.map List.length).map fun n => List.replicate n ((0, 0, 0) : Color) := by
  rw [zerosLike, List.map_map]
  apply List.map_congr_left
  intro row _
  exact List.map_const' row ((0, 0, 0) : Color)

/-- C10: the renderer's output depends on the `frame` argument only through
its shape: any two frames of identical dimensions yield the same canvas.
All drawing calls target the freshly zero-initialized `replica`, so the pixel
contents of `frame` are never read and `frame` is never written. -/
theorem C10_frame_shape_only (self : PoseVisualizer) (f g : Img)
    (ml : List (ℕ × ℤ × ℤ)) (conns : List (ℕ × ℕ)) (hfg : sameShape f g) :
    draw_mirrored_pose self f ml conns = draw_mirrored_pose self g ml conns := by
  rw [draw_mirrored_pose, draw_mirrored_pose, zerosLike_shape, zerosLike_shape, hfg]

/-- Witness for C10: two one-pixel frames with different contents produce the
same rendered canvas. -/
theorem C10_frame_shape_only_witness :
    draw_mirrored_pose ⟨(255, 0, 0), (0, 0, 255), 3, 2, 150⟩ [[(1, 2, 3)]]
        [(0, (0, 0))] [] =
      draw_mirrored_pose ⟨(255, 0, 0), (0, 0, 255), 3, 2, 150⟩ [[(200, 9, 9)]]
        [(0, (0, 0))] [] :=
  C10_frame_shape_only ⟨(255, 0, 0), (0, 0, 255), 3, 2, 150⟩ [[(1, 2, 3)]]
    [[(200, 9, 9)]] [(0, (0, 0))] [] rfl

/-- Saturating addition with an all-zero row returns the row unchanged when
every channel fits in 8 bits. -/
theorem zipRow_zero : ∀ (row : List Color),
    (∀ c ∈ row, c.1 ≤ 255 ∧ c.2.1 ≤ 255 ∧ c.2.2 ≤ 255) →
    List.zipWith addColor row (row.map fun _ => ((0, 0, 0) : Color)) = row
  | [], _ => rfl
  | c :: cs, hr => by
    simp only [List.map_cons, List.zipWith_cons_cons]
    obtain ⟨h1, h2, h3⟩ := hr c (List.mem_cons_self c cs)
    rw [zipRow_zero cs fun d hd => hr d (List.mem_cons_of_mem c hd)]
    congr 1
    simp [addColor, satAdd, min_eq_right h1, min_eq_right h2, min_eq_right h3]

/-- Compositing an 8-bit image with its zero canvas returns it unchanged. -/
theorem composite_zerosLike : ∀ (frame : Img), wf8 frame →
    create_composite frame (zerosLike frame) = frame
  | [], _ => rfl
  | row :: rest, hwf => by
    have hrow := hwf row (List.mem_cons_self row rest)
    have hrest : wf8 rest := fun r hr => hwf r (List.mem_cons_of_mem row hr)
    have htail := composite_zerosLike rest hrest
    simp only [create_composite, cvAdd, zerosLike, List.map_cons,
      List.zipWith_cons_cons] at htail ⊢
    rw [zipRow_zero row hrow, htail]

/-- C6: an empty keypoint list yields an empty mirrored map; rendering the
empty map issues no drawing call, leaving the all-zero canvas; and
compositing that canvas with any 8-bit frame returns the frame exactly. -/
theorem C6_empty_pipeline (self : PoseVisualizer) (frame : Img)
    (conns : List (ℕ × ℕ)) (h w : ℕ) (hwf : wf8 frame) :
    create_mirrored_landmarks self [] h w = [] ∧
      draw_mirrored_pose self frame [] conns = zerosLike frame ∧
      create_composite frame (draw_mirrored_pose self frame [] conns) = frame := by
  have hops : drawOps self [] conns = [] := by
    rw [drawOps, List.map_nil, List.nil_append]
    exact List.filterMap_eq_nil.mpr fun c _ => rfl
  have hdraw : draw_mirrored_pose self frame [] conns = zerosLike frame := by
    rw [draw_mirrored_pose, hops]
    rfl
  exact ⟨rfl, hdraw, by rw [hdraw]; exact composite_zerosLike frame hwf⟩

/-- Witness for C6 on a concrete `1×2` frame. -/
theorem C6_empty_pipeline_witness :
    create_composite [[(5, 6, 7), (255, 0, 9)]]
        (draw_mirrored_pose ⟨(255, 0, 0), (0, 0, 255), 3, 2, 150⟩
          [[(5, 6, 7), (255, 0, 9)]] [] [(11, 12)]) =
      [[(5, 6, 7), (255, 0, 9)]] :=
  (C6_empty_pipeline ⟨(255, 0, 0), (0, 0, 255), 3, 2, 150⟩
      [[(5, 6, 7), (255, 0, 9)]] [(11, 12)] 1 2 (by unfold wf8; decide)).2.2

/- ### Orchestration: `main` in `dance_companion.py` and the `app.py` loop -/

/-- The Python exceptions relevant to the orchestration code. -/
inductive PyExc where
  /-- Exception `ValueError` raised by `VideoSource.__init__` when
  `cv2.VideoCapture(source).isOpened()` is false. -/
  | valueError
  /-- An exception raised by some step inside the loop body (detection,
  drawing, display, …). -/
  | stepError
  /-- Exception `NameError`/`UnboundLocalError`: a local variable referenced before
  assignment. -/
  | nameError
deriving DecidableEq

/-- The environment one run of the orchestration observes: whether the video
source opens, the `ret` flag of each successive `read_frame()` call (an
exhausted list reads as `False`, i.e. end of stream), which iterations see
the `q` key, and an oracle giving the loop iteration (if any) whose body
raises an exception. -/
structure World where
  openOk : Bool
  reads : List Bool
  keys : List Bool
  errAt : Option ℕ
deriving DecidableEq

/-- What a run did: how many times the Landmark Provider's detection was
invoked, how many times the Frame Source's `release()` ran, whether an
exception was caught and logged by an `except` block, and the exception (if
any) that propagated out uncaught. -/
structure Outcome where
  detectCalls : ℕ
  releaseCalls : ℕ
  caughtLogged : Bool
  uncaught : Option PyExc
deriving DecidableEq

/-- The shared `while True:` loop of both scripts:

    while True:
        ret, frame = video_source.read_frame()
        if not ret:
            break
        pose_results = pose_detector.detect_landmarks(frame)
        ...
        if cv2.waitKey(30) & 0xFF == ord('q'):
            break

Returns the number of detection calls made and the exception, if any, that
escaped the loop body (per the `errAt` oracle). `n` is the index of the
current iteration. -/
def runLoop (keys : List Bool) (errAt : Option ℕ) :
    List Bool → ℕ → ℕ × Option PyExc
  | [], n => (n, none)
  | false :: _, n => (n, none)
  | true :: rest, n =>
    if errAt = some n then (n + 1, some PyExc.stepError)
    else if keys.getD n false then (n + 1, none)
    else runLoop keys errAt rest (n + 1)

/-- Embedding of `main()` in `dance_companion.py`:

    try:
        video_source = VideoSource(source)
        ...
        while True:
            ...
    except Exception as e:
        print the error
    finally:
        video_source.release()
        cv2.destroyAllWindows()

If `VideoSource(source)` raises, the `except` block logs the `ValueError`,
but the `finally` block then evaluates `video_source.release()` with
`video_source` never assigned: a `NameError` is raised there and propagates,
and no release happens. If the open succeeds, the loop runs, any exception
from it is caught and logged, and `finally` releases the bound source once. -/
def mainRun (w : World) : Outcome :=
  if w.openOk then
    let r := runLoop w.keys w.errAt w.reads 0
    { detectCalls := r.1, releaseCalls := 1, caughtLogged := r.2.isSome,
      uncaught := none }
  else
    { detectCalls := 0, releaseCalls := 0, caughtLogged := true,
      uncaught := some PyExc.nameError }

/-- The module-level code of `app.py`: the same loop with no `try`/`except`/
`finally` at all; `video_source.release()` is the statement after the loop.
A failed open or an exception escaping the loop body propagates out of the
script and the release statement is never reached; on normal loop exit the
source is released once. -/
def appRun (w : World) : Outcome :=
  if w.openOk then
    let r := runLoop w.keys w.errAt w.reads 0
    match r.2 with
    | some e =>
        { detectCalls := r.1, releaseCalls := 0, caughtLogged := false,
          uncaught := some e }
    | none =>
        { detectCalls := r.1, releaseCalls := 1, caughtLogged := false,
          uncaught := none }
  else
    { detectCalls := 0, releaseCalls := 0, caughtLogged := false,
      uncaught := some PyExc.valueError }

/-- C3 fails on the code: when the Frame Source cannot be opened,
`main`'s `finally` block references the unbound `video_source`, so a
`NameError` propagates uncaught and `release()` is never invoked; and in
`app.py` an exception raised by a loop step (here at iteration 0) propagates
uncaught with no release either. Both contradict the claimed
guaranteed-release, log-and-do-not-propagate behaviour. -/
theorem C3_release_not_guaranteed :
    (mainRun ⟨false, [], [], none⟩).releaseCalls = 0 ∧
      (mainRun ⟨false, [], [], none⟩).uncaught = some PyExc.nameError ∧
      (appRun ⟨true, [true, true], [], some 0⟩).releaseCalls = 0 ∧
      (appRun ⟨true, [true, true], [], some 0⟩).uncaught = some PyExc.stepError := by
  decide

/-- C9: if the source opens and the very first `read_frame()` reports no
frame, both orchestration variants make zero detection calls and release the
Frame Source exactly once. -/
theorem C9_first_read_none (w : World) (hopen : w.openOk = true)
    (hfirst : w.reads = [] ∨ ∃ rest, w.reads = false :: rest) :
    (mainRun w).detectCalls = 0 ∧ (mainRun w).releaseCalls = 1 ∧
      (appRun w).detectCalls = 0 ∧ (appRun w).releaseCalls = 1 := by
  have hloop : runLoop w.keys w.errAt w.reads 0 = (0, none) := by
    rcases hfirst with h | ⟨rest, h⟩ <;> rw [h] <;> rfl
  simp [mainRun, appRun, hopen, hloop]

/-- Witness for C9: a source that opens but is exhausted immediately. -/
theorem C9_first_read_none_witness :
    (mainRun ⟨true, [], [], none⟩).detectCalls = 0 ∧
      (mainRun ⟨true, [], [], none⟩).releaseCalls = 1 ∧
      (appRun ⟨true, [], [], none⟩).detectCalls = 0 ∧
      (appRun ⟨true, [], [], none⟩).releaseCalls = 1 :=
  C9_first_read_none ⟨true, [], [], none⟩ rfl (Or.inl rfl)

end DanceCompanion
